import Mathlib

/-!
Shallow embedding of `app.py` (Flask OCR + entity-extraction server).

The program is a single-file Flask app:
  * module initialization configures the Tesseract binary path by a
    platform check and the Gemini API key;
  * `ocr_pdf_or_image` OCRs a saved file (per page for PDFs);
  * `extract_entities_with_gemini` calls the Gemini model and parses its
    response text as JSON, with fallback objects on parse failure;
  * `extract_entities_endpoint` is the `POST /extract-entities` handler.

External collaborators (the `magic` sniffer, `pdf2image.convert_from_path`,
`PIL.Image.open`, `pytesseract.image_to_string`, the Gemini client and
`json.loads`) are modelled as oracle parameters: each oracle value records
the outcome the external call would produce during the request, with
`Except String` modelling a raised Python exception carrying `str(e)`.
-/

/-- A JSON value, the shape of Python dict/list/str/num/bool/None data
that `json.loads` produces and `jsonify` serializes. -/
inductive JsonVal where
  | jnull : JsonVal
  | jbool : Bool → JsonVal
  | jnum : Int → JsonVal
  | jstr : String → JsonVal
  | jarr : List JsonVal → JsonVal
  | jobj : List (String × JsonVal) → JsonVal

/-- Python `needle in hay` substring test (used for `'pdf' in file_type`
and to state that an error message names Poppler). -/
def containsSub (hay needle : String) : Bool :=
  (List.range (hay.toList.length + 1)).any
    (fun i => needle.toList.isPrefixOf (hay.toList.drop i))

/-- Number of positions of `hay` at which `needle` occurs as a substring
(used to state claims about occurrence counts of the page-break marker). -/
def countOccur (hay needle : String) : Nat :=
  ((List.range (hay.toList.length + 1)).filter
    (fun i => needle.toList.isPrefixOf (hay.toList.drop i))).length

/-- Python `path.lower()` (ASCII case folding suffices for the paths and
mime strings involved). -/
def pyLower (s : String) : String :=
  String.mk (s.toList.map Char.toLower)

/-- Python `s.endswith(suffix)`. -/
def strEndsWith (s suffix : String) : Bool :=
  suffix.toList.isSuffixOf s.toList

/-- Python `not s.strip()`: true iff every character of `s` is whitespace
(so stripping both ends leaves the empty string). -/
def stripIsEmpty (s : String) : Bool :=
  s.toList.all (fun c => c.isWhitespace)

/-- Python `sep.join(parts)`. -/
def pyJoin (sep : String) : List String → String
  | [] => ""
  | [t] => t
  | t :: rest => t ++ sep ++ pyJoin sep rest

/-- Python `s.rfind(c)`: greatest index of `c` in `s`, `-1` if absent. -/
def rfindChar (c : Char) (l : List Char) : Int :=
  match ((List.range l.length).filter (fun i => l.get? i == some c)).getLast? with
  | some i => (i : Int)
  | none => -1

/-- `os.path.splitext(p)[1]` (posix): the extension starts at the last dot
that lies after the last path separator, unless every character between the
separator and that dot is itself a dot (hidden files like `.bashrc` have no
extension). Mirrors CPython's `genericpath._splitext`. -/
def splitextExt (p : String) : String :=
  let l := p.toList
  let sepIndex := rfindChar '/' l
  let dotIndex := rfindChar '.' l
  if dotIndex > sepIndex &&
      (List.range l.length).any (fun j =>
        decide (sepIndex < (j : Int)) && decide ((j : Int) < dotIndex) &&
          (l.get? j != some '.')) then
    String.mk (l.drop dotIndex.toNat)
  else
    ""

/-!
## Module initialization (lines 16-34 of `app.py`)

The import list of `app.py` is reproduced verbatim; name resolution of
`platform` at line 20 is checked against it, since Python raises
`NameError` at module-import time when a global name is not bound.
-/

/-- The modules bound by the import statements at the top of `app.py`. -/
def importedNames : List String :=
  ["flask", "pytesseract", "pdf2image", "PIL", "os", "tempfile", "magic",
   "google.generativeai", "dotenv", "json", "typing"]

/-- The startup step at lines 20-25: resolve the Tesseract command from the
platform name. Evaluating `platform.system()` first requires the global
name `platform` to be bound, which in `app.py` it is not. -/
def moduleInitTesseractCmd (systemName : String) : Except String String :=
  if importedNames.contains "platform" then
    if systemName == "Windows" then
      Except.ok "C:/Program Files/Tesseract-OCR/tesseract.exe"
    else
      Except.ok "tesseract"
  else
    Except.error "NameError: name \x27platform\x27 is not defined"

/-!
## `ocr_pdf_or_image` (lines 39-62)
-/

/-- One element of the list `ocr_pdf_or_image` returns:
`{"page": i, "text": page_text}`. -/
structure PageBlock where
  page : Nat
  text : String
deriving DecidableEq, Repr

/-- An opaque PIL image handle (a page rasterized by `convert_from_path`,
or the image opened by `Image.open`). -/
structure Img where
  id : Nat
deriving DecidableEq, Repr

/-- Outcomes of the external calls `ocr_pdf_or_image` makes on the saved
file during one request. -/
structure OcrEnv where
  /-- `magic.from_file(file_path, mime=True)`. -/
  fileType : String
  /-- `convert_from_path(file_path)`: the rasterized pages, or a raised
  exception (e.g. Poppler missing). -/
  convert : Except String (List Img)
  /-- `Image.open(file_path)` in the non-PDF branch. -/
  imgOpen : Except String Img
  /-- `pytesseract.image_to_string(img)`. -/
  tess : Img → Except String String

/-- Result of `ocr_pdf_or_image` plus observations: which branch ran, how
often Tesseract was invoked, how often the rasterizer was invoked. -/
structure OcrOutcome where
  result : Except String (List PageBlock)
  usedPdfBranch : Bool
  tessCalls : Nat
  convertCalls : Nat
deriving Repr

/-- The loop `for i, img in enumerate(images, start=1)` of the PDF branch:
OCR each page, pairing it with its 1-based index; a raised exception
aborts the loop. Also counts the Tesseract calls made. -/
def ocrLoop (tess : Img → Except String String) :
    List Img → Nat → Except String (List PageBlock) × Nat
  | [], _ => (Except.ok [], 0)
  | img :: rest, i =>
    match tess img with
    | Except.error e => (Except.error e, 1)
    | Except.ok t =>
      match ocrLoop tess rest (i + 1) with
      | (Except.ok bs, n) => (Except.ok ({ page := i, text := t } :: bs), n + 1)
      | (Except.error e, n) => (Except.error e, n + 1)

/-- The `RuntimeError` message raised when the PDF branch's try block
fails (line 55). -/
def pdfErrMsg (e : String) : String :=
  "Failed to process PDF. Is Poppler installed and in your PATH? Error: " ++ e

/-- `ocr_pdf_or_image(file_path)` (lines 39-62): decide PDF-ness from the
lowercased path suffix or the sniffed mime type; PDFs are rasterized and
OCRed per page inside a try that rewraps any exception in the Poppler
message; other files are opened and OCRed once as a single page. -/
def ocr_pdf_or_image (file_path : String) (env : OcrEnv) : OcrOutcome :=
  let file_type := env.fileType
  let is_pdf := strEndsWith (pyLower file_path) ".pdf" || containsSub file_type "pdf"
  if is_pdf then
    match env.convert with
    | Except.error e =>
      { result := Except.error (pdfErrMsg e), usedPdfBranch := true,
        tessCalls := 0, convertCalls := 1 }
    | Except.ok images =>
      match ocrLoop env.tess images 1 with
      | (Except.ok blocks, n) =>
        { result := Except.ok blocks, usedPdfBranch := true,
          tessCalls := n, convertCalls := 1 }
      | (Except.error e, n) =>
        { result := Except.error (pdfErrMsg e), usedPdfBranch := true,
          tessCalls := n, convertCalls := 1 }
  else
    match env.imgOpen with
    | Except.error e =>
      { result := Except.error e, usedPdfBranch := false,
        tessCalls := 0, convertCalls := 0 }
    | Except.ok img =>
      match env.tess img with
      | Except.error e =>
        { result := Except.error e, usedPdfBranch := false,
          tessCalls := 1, convertCalls := 0 }
      | Except.ok t =>
        { result := Except.ok [{ page := 1, text := t }], usedPdfBranch := false,
          tessCalls := 1, convertCalls := 0 }

/-!
## `extract_entities_with_gemini` (lines 65-106)
-/

/-- The Gemini response object. Accessing `.text` on it can itself raise
(e.g. a `ValueError` for a blocked response); the access is deterministic
for a fixed response object. -/
structure GeminiResponse where
  textResult : Except String String

/-- Outcome of `json.loads(t)`: a parsed value, a `json.JSONDecodeError`,
or some other exception. -/
inductive LoadsResult where
  | ok : JsonVal → LoadsResult
  | decodeErr : LoadsResult
  | otherExc : String → LoadsResult

/-- The f-string prompt built at lines 69-87, with the OCR text spliced in
verbatim (`{{` and `}}` in the source are literal braces). -/
def promptFor (text : String) : String :=
  "\n    Extract structured medical information from the following OCR text.\n    Return a valid JSON object with these fields:\n    - \"name\": Patient\x27s full name (string)\n    - \"age\": Patient\x27s age (integer or string)\n    - \"disease\": Primary disease or condition diagnosed (string)\n    - \"values\": A dictionary of lab/test values with their units (e.g., \x7b\"Hemoglobin\": \"14 g/dL\"\x7d)\n    - \"doctorInfo\": A dictionary with the doctor\x27s details (\"name\", \"clinic\", \"address\", \"phone\")\n    - \"patientVitals\": A dictionary of vitals (\"weight\", \"bloodPressure\", \"temperature\", \"pulse\", \"height\", \"bmi\")\n    - \"prescriptions\": A list of dictionaries, where each contains \x7b\"medication\", \"dosage\", \"timings\", \"duration\"\x7d\n    - \"notes\": Any additional clinical notes or advice (string)\n\n    OCR Text:\n    ---\n    " ++ text ++ "\n    ---\n\n    Return valid JSON only. If a field is not present, use null or an empty structure (e.g., [], \x7b\x7d, \"\").\n    "

/-- The fallback dict returned when `json.loads` raises
`JSONDecodeError` (line 103). -/
def parseFailFallback (raw : String) : JsonVal :=
  JsonVal.jobj [("error", JsonVal.jstr "Failed to parse Gemini response as JSON"),
                ("raw_text", JsonVal.jstr raw)]

/-- The fallback dict returned by the broad `except Exception` handler
(line 106). -/
def genericFallback (msg raw : String) : JsonVal :=
  JsonVal.jobj [("error", JsonVal.jstr ("An unexpected error occurred: " ++ msg)),
                ("raw_text", JsonVal.jstr raw)]

/-- `extract_entities_with_gemini(text)` (lines 65-106). `gen` is the
behaviour of `model.generate_content` as a function of the prompt. The
`try` begins only after `generate_content` has returned, so an exception
from the model call propagates to the caller. Inside the `try`,
`response.text` is read and its value parsed; a `JSONDecodeError` yields
the parse-failure fallback, and any other exception is caught by the broad
handler, which re-reads `response.text` while building its fallback dict
— so when reading `response.text` was what raised, the handler raises the
same error again and the function propagates it. -/
def extract_entities_with_gemini (text : String)
    (gen : String → Except String GeminiResponse)
    (loads : String → LoadsResult) : Except String JsonVal :=
  let prompt := promptFor text
  match gen prompt with
  | Except.error e => Except.error e
  | Except.ok response =>
    match response.textResult with
    | Except.error e =>
      -- caught by `except Exception`, whose fallback dict evaluates
      -- `response.text` again and raises the same error
      match response.textResult with
      | Except.error e2 => Except.error e2
      | Except.ok t => Except.ok (genericFallback e t)
    | Except.ok t =>
      match loads t with
      | LoadsResult.ok v => Except.ok v
      | LoadsResult.decodeErr => Except.ok (parseFailFallback t)
      | LoadsResult.otherExc m => Except.ok (genericFallback m t)

/-!
## `extract_entities_endpoint` (lines 109-163)
-/

/-- The uploaded file part `request.files['file']`. -/
structure FilePart where
  filename : String
  /-- The uploaded bytes, written to the temporary path by `file.save`. -/
  content : String
deriving DecidableEq, Repr

/-- The incoming request: whether a `file` part is present and what it is. -/
structure Request where
  file : Option FilePart
deriving DecidableEq, Repr

/-- The external-call outcomes a single request can observe. -/
structure HandlerEnv where
  ocrEnv : OcrEnv
  gen : String → Except String GeminiResponse
  loads : String → LoadsResult
  /-- The fresh random path chosen by `tempfile.NamedTemporaryFile`
  (its full name is this base followed by the `suffix` argument). -/
  tmpBase : String

/-- A `jsonify({'error': msg})` body. -/
def errorBody (msg : String) : JsonVal :=
  JsonVal.jobj [("error", JsonVal.jstr msg)]

/-- The success payload built at lines 142-146. -/
def payloadBody (filename ocrText : String) (entities : JsonVal) : JsonVal :=
  JsonVal.jobj [("filename", JsonVal.jstr filename),
                ("ocr_text", JsonVal.jstr ocrText),
                ("extracted_entities", entities)]

/-- `os.path.exists` over the modelled filesystem (a set of paths). -/
def pathExists (p : String) (fs : List String) : Bool :=
  decide (p ∈ fs)

/-- `os.unlink p` over the modelled filesystem. -/
def removePath (p : String) (fs : List String) : List String :=
  fs.filter (fun q => q != p)

/-- What one request to `POST /extract-entities` produces: the HTTP status
and JSON body, whether the temporary file was created and at which path,
the filesystem after the handler returns, and which pipeline steps ran. -/
structure HandlerOutcome where
  status : Nat
  body : JsonVal
  tempCreated : Bool
  tempPath : String
  fsAfter : List String
  ocrCalled : Bool
  geminiCalled : Bool

/-- The page-break marker joining per-page texts (line 132). -/
def pageBreakSep : String := "\n\n--- Page Break ---\n\n"

/-- `extract_entities_endpoint` (lines 109-163) over an initial
filesystem `fs0`. The temporary file is created with the original
filename's extension as suffix; the `finally` block unlinks it (guarded by
`os.path.exists`) on every path out of the `try`, which covers the 500
catch-all, the two in-`try` returns (400 empty-OCR and 200 success). -/
def extract_entities_endpoint (req : Request) (env : HandlerEnv)
    (fs0 : List String) : HandlerOutcome :=
  match req.file with
  | none =>
    { status := 400, body := errorBody "No file part in the request",
      tempCreated := false, tempPath := "", fsAfter := fs0,
      ocrCalled := false, geminiCalled := false }
  | some file =>
    if file.filename == "" then
      { status := 400, body := errorBody "No file selected",
        tempCreated := false, tempPath := "", fsAfter := fs0,
        ocrCalled := false, geminiCalled := false }
    else
      let file_ext := splitextExt file.filename
      let file_path := env.tmpBase ++ file_ext
      -- `NamedTemporaryFile(delete=False, suffix=file_ext)` creates the
      -- file; `file.save(file_path)` writes the upload into it
      let fs1 := file_path :: fs0
      -- the `finally` block (lines 159-163)
      let finallyCleanup := fun fs =>
        if pathExists file_path fs then removePath file_path fs else fs
      match (ocr_pdf_or_image file_path env.ocrEnv).result with
      | Except.error e =>
        { status := 500, body := errorBody ("An internal error occurred: " ++ e),
          tempCreated := true, tempPath := file_path,
          fsAfter := finallyCleanup fs1, ocrCalled := true, geminiCalled := false }
      | Except.ok pages =>
        let full_text := pyJoin pageBreakSep (pages.map (fun p => p.text))
        if stripIsEmpty full_text then
          { status := 400,
            body := errorBody "OCR could not extract any text from the document.",
            tempCreated := true, tempPath := file_path,
            fsAfter := finallyCleanup fs1, ocrCalled := true, geminiCalled := false }
        else
          match extract_entities_with_gemini full_text env.gen env.loads with
          | Except.error e =>
            { status := 500, body := errorBody ("An internal error occurred: " ++ e),
              tempCreated := true, tempPath := file_path,
              fsAfter := finallyCleanup fs1, ocrCalled := true, geminiCalled := true }
          | Except.ok ents =>
            { status := 200, body := payloadBody file.filename full_text ents,
              tempCreated := true, tempPath := file_path,
              fsAfter := finallyCleanup fs1, ocrCalled := true, geminiCalled := true }

/-- Builds a request environment from the outcome each external call
would have; used to instantiate theorems at concrete inputs (the model
call and `json.loads` are given constant behaviours). -/
def mkEnv (ft : String) (conv : Except String (List Img)) (io : Except String Img)
    (ts : Img → Except String String) (genR : Except String GeminiResponse)
    (ld : LoadsResult) (base : String) : HandlerEnv :=
  { ocrEnv := { fileType := ft, convert := conv, imgOpen := io, tess := ts },
    gen := fun _ => genR, loads := fun _ => ld, tmpBase := base }

/-!
## Helper lemmas
-/

lemma pathExists_removePath (p : String) (fs : List String) :
    pathExists p (removePath p fs) = false := by
  simp [pathExists, removePath, List.mem_filter]

lemma pathExists_cons_self (p : String) (fs : List String) :
    pathExists p (p :: fs) = true := by
  simp [pathExists]

lemma isPrefixOf_append (p : List Char) : ∀ (x y : List Char),
    p.isPrefixOf x = true → p.isPrefixOf (x ++ y) = true := by
  induction p with
  | nil => intro x y _; cases x ++ y <;> rfl
  | cons a p ih =>
    intro x y h
    cases x with
    | nil => simp [List.isPrefixOf] at h
    | cons b x =>
      simp only [List.isPrefixOf, Bool.and_eq_true] at h
      simp only [List.cons_append, List.isPrefixOf, Bool.and_eq_true]
      exact ⟨h.1, ih x y h.2⟩

lemma internal_msg_ne_selected (e : String) :
    "An internal error occurred: " ++ e ≠ "No file selected" := by
  intro h
  have hlen := congrArg String.length h
  rw [String.length_append] at hlen
  have h1 : ("An internal error occurred: " : String).length = 28 := rfl
  have h2 : ("No file selected" : String).length = 16 := rfl
  omega

lemma ocrLoop_ok (tess : Img → Except String String) :
    ∀ (imgs : List Img) (texts : List String) (i : Nat),
      imgs.map tess = texts.map Except.ok →
      ocrLoop tess imgs i =
        (Except.ok (List.zipWith (fun n t => ({ page := n, text := t } : PageBlock))
            (List.range' i imgs.length) texts), imgs.length) := by
  intro imgs
  induction imgs with
  | nil =>
    intro texts i h
    cases texts with
    | nil => rfl
    | cons t ts => simp at h
  | cons img rest ih =>
    intro texts i h
    cases texts with
    | nil => simp at h
    | cons t ts =>
      simp only [List.map_cons, List.cons.injEq] at h
      simp only [ocrLoop, h.1, ih ts (i + 1) h.2, List.length_cons, List.range'_succ,
        List.zipWith_cons_cons]

lemma zipWith_page_text_maps :
    ∀ (texts : List String) (i : Nat),
      (List.zipWith (fun n t => ({ page := n, text := t } : PageBlock))
          (List.range' i texts.length) texts).map (fun p => p.text) = texts ∧
      (List.zipWith (fun n t => ({ page := n, text := t } : PageBlock))
          (List.range' i texts.length) texts).map (fun p => p.page) =
        List.range' i texts.length := by
  intro texts
  induction texts with
  | nil => intro i; exact ⟨rfl, rfl⟩
  | cons t ts ih =>
    intro i
    have h := ih (i + 1)
    simp only [List.length_cons, List.range'_succ, List.zipWith_cons_cons, List.map_cons]
    exact ⟨by rw [h.1], by rw [h.2]⟩

lemma pdfErrMsg_names_poppler (e : String) : containsSub (pdfErrMsg e) "Poppler" = true := by
  have hsplit : (pdfErrMsg e).toList =
      ("Failed to process PDF. Is Poppler installed and in your PATH? Error: " : String).toList
        ++ e.toList := rfl
  have hfix : ("Failed to process PDF. Is Poppler installed and in your PATH? Error: " :
      String).toList.length = 69 := by decide
  unfold containsSub
  rw [List.any_eq_true]
  refine ⟨26, ?_, ?_⟩
  · rw [List.mem_range, hsplit, List.length_append, hfix]
    omega
  · rw [hsplit, List.drop_append_eq_append_drop]
    exact isPrefixOf_append _ _ _ (by decide)

lemma cleanup_not_exists (p : String) (fs0 : List String) :
    pathExists p (if pathExists p (p :: fs0) then removePath p (p :: fs0) else p :: fs0)
      = false := by
  rw [pathExists_cons_self]
  simp [pathExists_removePath]

/-!
## Claims
-/

/-- C1: the spec says the OCR binary path is resolved by a platform check
executed once at startup, after which startup proceeds. In `app.py` the
name `platform` is never imported, so evaluating `platform.system()` at
line 20 raises `NameError` during module import on every platform and
startup never proceeds: the code contradicts its own comments (and the
spec, which records the intent). -/
theorem C1_startup_platform_check_raises (systemName : String) :
    moduleInitTesseractCmd systemName =
      Except.error "NameError: name \x27platform\x27 is not defined" := rfl

/-- C2 counterexample: the claim says any failure during the
generative-model call is converted into a fallback object and never
raised. But `model.generate_content` is called before the `try` begins,
so its exception propagates: with a model call that raises
`503 Service Unavailable`, `extract_entities_with_gemini` raises rather
than returning a fallback object. -/
theorem C2_counterexample :
    extract_entities_with_gemini "some text"
      (fun _ => Except.error "503 Service Unavailable")
      (fun _ => LoadsResult.decodeErr) =
    Except.error "503 Service Unavailable" := rfl

/-- C2 amended: only failures raised inside the parse `try` block are
converted into the fallback shape: a non-decode failure of `json.loads`
yields `{error: "An unexpected error occurred: <msg>", raw_text: <text>}`.
A failure of the `generate_content` call itself propagates to the caller
(it precedes the `try`), and a failure reading `response.text` also
propagates, because the broad `except` handler re-reads `response.text`
while building its fallback and raises the same error again. -/
theorem C2_amended_fallback_scope (text : String)
    (gen : String → Except String GeminiResponse) (loads : String → LoadsResult) :
    (∀ r t m, gen (promptFor text) = Except.ok r → r.textResult = Except.ok t →
      loads t = LoadsResult.otherExc m →
      extract_entities_with_gemini text gen loads = Except.ok (genericFallback m t)) ∧
    (∀ e, gen (promptFor text) = Except.error e →
      extract_entities_with_gemini text gen loads = Except.error e) ∧
    (∀ r e, gen (promptFor text) = Except.ok r → r.textResult = Except.error e →
      extract_entities_with_gemini text gen loads = Except.error e) := by
  refine ⟨?_, ?_, ?_⟩
  · intro r t m hg ht hl
    simp [extract_entities_with_gemini, hg, ht, hl]
  · intro e hg
    simp [extract_entities_with_gemini, hg]
  · intro r e hg ht
    simp [extract_entities_with_gemini, hg, ht]

/-- C2 amended, witnessed at concrete inputs: a `TypeError`-style failure
inside the parse block is absorbed into the generic fallback, while a
failing model call propagates its error. -/
theorem C2_amended_fallback_scope_witness :
    extract_entities_with_gemini "t"
      (fun _ => Except.ok { textResult := Except.ok "oops" })
      (fun _ => LoadsResult.otherExc "bad type") =
      Except.ok (genericFallback "bad type" "oops") ∧
    extract_entities_with_gemini "t"
      (fun _ => Except.error "boom")
      (fun _ => LoadsResult.decodeErr) = Except.error "boom" :=
  ⟨(C2_amended_fallback_scope "t" (fun _ => Except.ok { textResult := Except.ok "oops" })
      (fun _ => LoadsResult.otherExc "bad type")).1 _ "oops" "bad type" rfl rfl rfl,
   (C2_amended_fallback_scope "t" (fun _ => Except.error "boom")
      (fun _ => LoadsResult.decodeErr)).2.1 "boom" rfl⟩

/-- C3: whenever the handler saved the upload to a temporary path, the
`finally` block unlinks that path before the handler returns, on every
exit (200 success, 400 empty-OCR, and the 500 catch-all): the temporary
path is absent from the filesystem afterwards. -/
theorem C3_temp_file_removed (req : Request) (env : HandlerEnv) (fs0 : List String)
    (h : (extract_entities_endpoint req env fs0).tempCreated = true) :
    pathExists (extract_entities_endpoint req env fs0).tempPath
      (extract_entities_endpoint req env fs0).fsAfter = false := by
  cases hreq : req.file with
  | none => simp [extract_entities_endpoint, hreq] at h
  | some file =>
    by_cases hname : file.filename = ""
    · simp [extract_entities_endpoint, hreq, hname] at h
    · have hb : (file.filename == "") = false := by simp [hname]
      simp only [extract_entities_endpoint, hreq, hb, Bool.false_eq_true, if_false]
      rcases hocr : (ocr_pdf_or_image (env.tmpBase ++ splitextExt file.filename)
          env.ocrEnv).result with e | pages
      · exact cleanup_not_exists _ _
      · dsimp only
        by_cases hws : stripIsEmpty (pyJoin pageBreakSep (pages.map (fun p => p.text))) = true
        · rw [if_pos hws]
          exact cleanup_not_exists _ _
        · rw [if_neg hws]
          split <;> exact cleanup_not_exists _ _


/-- C3 witnessed at a concrete request: an image upload processed to a 200
response leaves no temporary file behind. -/
theorem C3_temp_file_removed_witness :
    pathExists
      (extract_entities_endpoint { file := some { filename := "a.png", content := "x" } }
        (mkEnv "image/png" (Except.error "unused") (Except.ok { id := 0 })
          (fun _ => Except.ok "hello") (Except.ok { textResult := Except.ok "\x7b\x7d" })
          (LoadsResult.ok (JsonVal.jobj [])) "/tmp/tmpa") []).tempPath
      (extract_entities_endpoint { file := some { filename := "a.png", content := "x" } }
        (mkEnv "image/png" (Except.error "unused") (Except.ok { id := 0 })
          (fun _ => Except.ok "hello") (Except.ok { textResult := Except.ok "\x7b\x7d" })
          (LoadsResult.ok (JsonVal.jobj [])) "/tmp/tmpa") []).fsAfter = false :=
  C3_temp_file_removed _ _ _ rfl

/-- C4 counterexample: a two-page PDF in which every page's OCR text is
empty does not hit the 400 empty-text branch, because the joined text is
exactly the page-break marker, which is not whitespace-only; the request
returns 200 and the generative model is called, contradicting the claim
that an all-pages-empty OCR result yields 400 with no model call. -/
theorem C4_counterexample :
    (ocr_pdf_or_image "/tmp/tmpb.pdf"
        (mkEnv "application/pdf" (Except.ok [{ id := 0 }, { id := 1 }])
          (Except.error "unused") (fun _ => Except.ok "")
          (Except.ok { textResult := Except.ok "\x7b\x7d" })
          (LoadsResult.ok (JsonVal.jobj [])) "/tmp/tmpb").ocrEnv).result =
      Except.ok [{ page := 1, text := "" }, { page := 2, text := "" }] ∧
    (extract_entities_endpoint { file := some { filename := "doc.pdf", content := "" } }
        (mkEnv "application/pdf" (Except.ok [{ id := 0 }, { id := 1 }])
          (Except.error "unused") (fun _ => Except.ok "")
          (Except.ok { textResult := Except.ok "\x7b\x7d" })
          (LoadsResult.ok (JsonVal.jobj [])) "/tmp/tmpb") []).status = 200 ∧
    (extract_entities_endpoint { file := some { filename := "doc.pdf", content := "" } }
        (mkEnv "application/pdf" (Except.ok [{ id := 0 }, { id := 1 }])
          (Except.error "unused") (fun _ => Except.ok "")
          (Except.ok { textResult := Except.ok "\x7b\x7d" })
          (LoadsResult.ok (JsonVal.jobj [])) "/tmp/tmpb") []).geminiCalled = true ∧
    (extract_entities_endpoint { file := some { filename := "doc.pdf", content := "" } }
        (mkEnv "application/pdf" (Except.ok [{ id := 0 }, { id := 1 }])
          (Except.error "unused") (fun _ => Except.ok "")
          (Except.ok { textResult := Except.ok "\x7b\x7d" })
          (LoadsResult.ok (JsonVal.jobj [])) "/tmp/tmpb") []).body =
      payloadBody "doc.pdf" pageBreakSep (JsonVal.jobj []) :=
  ⟨rfl, rfl, rfl, rfl⟩

/-- C4 amended: the handler tests the JOINED text, so it returns 400
`{error: "OCR could not extract any text from the document."}` with no
model call exactly when the joined OCR text is empty or whitespace-only.
For a single page this is the page's own text being empty or
whitespace-only; for two or more pages the inserted page-break marker
itself contains non-whitespace, so this branch is not taken even when
every page's text is empty. -/
theorem C4_amended_empty_joined_text_400 (f : FilePart) (env : HandlerEnv)
    (fs0 : List String) (pages : List PageBlock)
    (hne : f.filename ≠ "")
    (hocr : (ocr_pdf_or_image (env.tmpBase ++ splitextExt f.filename) env.ocrEnv).result =
      Except.ok pages)
    (hws : stripIsEmpty (pyJoin pageBreakSep (pages.map (fun p => p.text))) = true) :
    (extract_entities_endpoint { file := some f } env fs0).status = 400 ∧
    (extract_entities_endpoint { file := some f } env fs0).body =
      errorBody "OCR could not extract any text from the document." ∧
    (extract_entities_endpoint { file := some f } env fs0).geminiCalled = false := by
  have hb : (f.filename == "") = false := by simp [hne]
  simp only [extract_entities_endpoint, hb, Bool.false_eq_true, if_false]
  rw [hocr]
  dsimp only
  rw [if_pos hws]
  exact ⟨rfl, rfl, rfl⟩

/-- C4 amended, witnessed on a single page of whitespace-only OCR text:
the handler returns the 400 body and makes no model call. -/
theorem C4_amended_empty_joined_text_400_witness :
    (extract_entities_endpoint { file := some { filename := "scan.png", content := "" } }
        (mkEnv "image/png" (Except.error "unused") (Except.ok { id := 0 })
          (fun _ => Except.ok "  \n") (Except.ok { textResult := Except.ok "\x7b\x7d" })
          (LoadsResult.ok (JsonVal.jobj [])) "/tmp/tmpc") []).status = 400 ∧
    (extract_entities_endpoint { file := some { filename := "scan.png", content := "" } }
        (mkEnv "image/png" (Except.error "unused") (Except.ok { id := 0 })
          (fun _ => Except.ok "  \n") (Except.ok { textResult := Except.ok "\x7b\x7d" })
          (LoadsResult.ok (JsonVal.jobj [])) "/tmp/tmpc") []).body =
      errorBody "OCR could not extract any text from the document." ∧
    (extract_entities_endpoint { file := some { filename := "scan.png", content := "" } }
        (mkEnv "image/png" (Except.error "unused") (Except.ok { id := 0 })
          (fun _ => Except.ok "  \n") (Except.ok { textResult := Except.ok "\x7b\x7d" })
          (LoadsResult.ok (JsonVal.jobj [])) "/tmp/tmpc") []).geminiCalled = false :=
  C4_amended_empty_joined_text_400 _ _ _ [{ page := 1, text := "  \n" }]
    (by decide) rfl (by decide)

/-- C5 counterexample: when a page's own OCR text contains the page-break
marker, the joined text has more than n-1 marker occurrences. Here a
successfully processed two-page PDF whose first page OCRs to the marker
itself yields an `ocr_text` with 2 occurrences of the separator, not
n - 1 = 1, refuting the "exactly n-1 occurrences" part of the claim. -/
theorem C5_counterexample :
    (ocr_pdf_or_image "/tmp/tmpe.pdf"
        (mkEnv "application/pdf" (Except.ok [{ id := 0 }, { id := 1 }])
          (Except.error "unused")
          (fun img => if img.id == 0 then Except.ok pageBreakSep else Except.ok "x")
          (Except.ok { textResult := Except.ok "\x7b\x7d" })
          (LoadsResult.ok (JsonVal.jobj [])) "/tmp/tmpe").ocrEnv).result =
      Except.ok [{ page := 1, text := pageBreakSep }, { page := 2, text := "x" }] ∧
    (extract_entities_endpoint { file := some { filename := "doc.pdf", content := "" } }
        (mkEnv "application/pdf" (Except.ok [{ id := 0 }, { id := 1 }])
          (Except.error "unused")
          (fun img => if img.id == 0 then Except.ok pageBreakSep else Except.ok "x")
          (Except.ok { textResult := Except.ok "\x7b\x7d" })
          (LoadsResult.ok (JsonVal.jobj [])) "/tmp/tmpe") []).body =
      payloadBody "doc.pdf" (pyJoin pageBreakSep [pageBreakSep, "x"]) (JsonVal.jobj []) ∧
    countOccur (pyJoin pageBreakSep [pageBreakSep, "x"]) pageBreakSep = 2 :=
  ⟨rfl, rfl, by decide⟩

/-- C5 amended: for a successfully processed PDF the returned `ocr_text`
equals the per-page OCR texts joined by the literal separator
`\n\n--- Page Break ---\n\n`, with pages numbered 1..n in order (page 1
first, page n last); the joined text therefore has n-1 separators
INSERTED between pages, but the total occurrence count of the separator
can exceed n-1 when a page's own text contains it. -/
theorem C5_amended_pagewise_join (f : FilePart) (env : HandlerEnv) (fs0 : List String)
    (imgs : List Img) (texts : List String) (ents : JsonVal)
    (hne : f.filename ≠ "")
    (hpdf : (strEndsWith (pyLower (env.tmpBase ++ splitextExt f.filename)) ".pdf" ||
      containsSub env.ocrEnv.fileType "pdf") = true)
    (hconv : env.ocrEnv.convert = Except.ok imgs)
    (htess : imgs.map env.ocrEnv.tess = texts.map Except.ok)
    (hnws : stripIsEmpty (pyJoin pageBreakSep texts) = false)
    (hgem : extract_entities_with_gemini (pyJoin pageBreakSep texts) env.gen env.loads =
      Except.ok ents) :
    ∃ pages : List PageBlock,
      (ocr_pdf_or_image (env.tmpBase ++ splitextExt f.filename) env.ocrEnv).result =
        Except.ok pages ∧
      pages.map (fun p => p.text) = texts ∧
      pages.map (fun p => p.page) = List.range' 1 texts.length ∧
      (extract_entities_endpoint { file := some f } env fs0).status = 200 ∧
      (extract_entities_endpoint { file := some f } env fs0).body =
        payloadBody f.filename (pyJoin pageBreakSep texts) ents := by
  have hlen : imgs.length = texts.length := by
    have h := congrArg List.length htess
    simpa using h
  have hloop := ocrLoop_ok env.ocrEnv.tess imgs texts 1 htess
  rw [hlen] at hloop
  have hmaps := zipWith_page_text_maps texts 1
  refine ⟨List.zipWith (fun n t => ({ page := n, text := t } : PageBlock))
    (List.range' 1 texts.length) texts, ?_, hmaps.1, hmaps.2, ?_, ?_⟩
  · simp only [ocr_pdf_or_image, hpdf, if_true, hconv]
    rw [hloop]
  · have hb : (f.filename == "") = false := by simp [hne]
    simp only [extract_entities_endpoint, hb, Bool.false_eq_true, if_false]
    rw [show (ocr_pdf_or_image (env.tmpBase ++ splitextExt f.filename) env.ocrEnv).result =
      Except.ok (List.zipWith (fun n t => ({ page := n, text := t } : PageBlock))
        (List.range' 1 texts.length) texts) from by
      simp only [ocr_pdf_or_image, hpdf, if_true, hconv]; rw [hloop]]
    dsimp only
    rw [hmaps.1, if_neg (by rw [hnws]; exact Bool.false_ne_true), hgem]
  · have hb : (f.filename == "") = false := by simp [hne]
    simp only [extract_entities_endpoint, hb, Bool.false_eq_true, if_false]
    rw [show (ocr_pdf_or_image (env.tmpBase ++ splitextExt f.filename) env.ocrEnv).result =
      Except.ok (List.zipWith (fun n t => ({ page := n, text := t } : PageBlock))
        (List.range' 1 texts.length) texts) from by
      simp only [ocr_pdf_or_image, hpdf, if_true, hconv]; rw [hloop]]
    dsimp only
    rw [hmaps.1, if_neg (by rw [hnws]; exact Bool.false_ne_true), hgem]

/-- C5 amended, witnessed on a concrete two-page PDF: `ocr_text` is
"Page one" and "Page two" joined by the separator, pages numbered 1, 2. -/
theorem C5_amended_pagewise_join_witness :
    ∃ pages : List PageBlock,
      (ocr_pdf_or_image "/tmp/tmpd.pdf"
          (mkEnv "application/pdf" (Except.ok [{ id := 0 }, { id := 1 }])
            (Except.error "unused")
            (fun img => if img.id == 0 then Except.ok "Page one" else Except.ok "Page two")
            (Except.ok { textResult := Except.ok "\x7b\x7d" })
            (LoadsResult.ok (JsonVal.jobj [])) "/tmp/tmpd").ocrEnv).result =
        Except.ok pages ∧
      pages.map (fun p => p.text) = ["Page one", "Page two"] ∧
      pages.map (fun p => p.page) = List.range' 1 (["Page one", "Page two"].length) ∧
      (extract_entities_endpoint { file := some { filename := "doc.pdf", content := "" } }
          (mkEnv "application/pdf" (Except.ok [{ id := 0 }, { id := 1 }])
            (Except.error "unused")
            (fun img => if img.id == 0 then Except.ok "Page one" else Except.ok "Page two")
            (Except.ok { textResult := Except.ok "\x7b\x7d" })
            (LoadsResult.ok (JsonVal.jobj [])) "/tmp/tmpd") []).status = 200 ∧
      (extract_entities_endpoint { file := some { filename := "doc.pdf", content := "" } }
          (mkEnv "application/pdf" (Except.ok [{ id := 0 }, { id := 1 }])
            (Except.error "unused")
            (fun img => if img.id == 0 then Except.ok "Page one" else Except.ok "Page two")
            (Except.ok { textResult := Except.ok "\x7b\x7d" })
            (LoadsResult.ok (JsonVal.jobj [])) "/tmp/tmpd") []).body =
        payloadBody "doc.pdf" (pyJoin pageBreakSep ["Page one", "Page two"]) (JsonVal.jobj []) :=
  C5_amended_pagewise_join { filename := "doc.pdf", content := "" }
    (mkEnv "application/pdf" (Except.ok [{ id := 0 }, { id := 1 }])
      (Except.error "unused")
      (fun img => if img.id == 0 then Except.ok "Page one" else Except.ok "Page two")
      (Except.ok { textResult := Except.ok "\x7b\x7d" })
      (LoadsResult.ok (JsonVal.jobj [])) "/tmp/tmpd") []
    [{ id := 0 }, { id := 1 }] ["Page one", "Page two"] (JsonVal.jobj [])
    (by decide) (by decide) rfl rfl (by decide) rfl

/-- C6: with non-empty OCR text, if the model's response text fails to
parse as JSON the handler still returns 200, and `extracted_entities` is
exactly `{error: "Failed to parse Gemini response as JSON", raw_text: <the
unparsed response text>}`. -/
theorem C6_parse_failure_still_200 (f : FilePart) (env : HandlerEnv) (fs0 : List String)
    (pages : List PageBlock) (r : GeminiResponse) (t : String)
    (hne : f.filename ≠ "")
    (hocr : (ocr_pdf_or_image (env.tmpBase ++ splitextExt f.filename) env.ocrEnv).result =
      Except.ok pages)
    (hnws : stripIsEmpty (pyJoin pageBreakSep (pages.map (fun p => p.text))) = false)
    (hgen : env.gen (promptFor (pyJoin pageBreakSep (pages.map (fun p => p.text)))) =
      Except.ok r)
    (ht : r.textResult = Except.ok t)
    (hloads : env.loads t = LoadsResult.decodeErr) :
    (extract_entities_endpoint { file := some f } env fs0).status = 200 ∧
    (extract_entities_endpoint { file := some f } env fs0).body =
      payloadBody f.filename (pyJoin pageBreakSep (pages.map (fun p => p.text)))
        (parseFailFallback t) := by
  have hb : (f.filename == "") = false := by simp [hne]
  have hgem : extract_entities_with_gemini (pyJoin pageBreakSep (pages.map (fun p => p.text)))
      env.gen env.loads = Except.ok (parseFailFallback t) := by
    simp [extract_entities_with_gemini, hgen, ht, hloads]
  constructor
  · simp only [extract_entities_endpoint, hb, Bool.false_eq_true, if_false]
    rw [hocr]
    dsimp only
    rw [if_neg (by rw [hnws]; exact Bool.false_ne_true), hgem]
  · simp only [extract_entities_endpoint, hb, Bool.false_eq_true, if_false]
    rw [hocr]
    dsimp only
    rw [if_neg (by rw [hnws]; exact Bool.false_ne_true), hgem]

/-- C6 witnessed concretely: an image OCRing to "hello" with a model
response of "not json" that fails to parse yields 200 with the
parse-failure fallback embedded. -/
theorem C6_parse_failure_still_200_witness :
    (extract_entities_endpoint { file := some { filename := "scan.png", content := "" } }
        (mkEnv "image/png" (Except.error "unused") (Except.ok { id := 0 })
          (fun _ => Except.ok "hello") (Except.ok { textResult := Except.ok "not json" })
          LoadsResult.decodeErr "/tmp/tmpf") []).status = 200 ∧
    (extract_entities_endpoint { file := some { filename := "scan.png", content := "" } }
        (mkEnv "image/png" (Except.error "unused") (Except.ok { id := 0 })
          (fun _ => Except.ok "hello") (Except.ok { textResult := Except.ok "not json" })
          LoadsResult.decodeErr "/tmp/tmpf") []).body =
      payloadBody "scan.png" (pyJoin pageBreakSep ["hello"]) (parseFailFallback "not json") :=
  C6_parse_failure_still_200 { filename := "scan.png", content := "" }
    (mkEnv "image/png" (Except.error "unused") (Except.ok { id := 0 })
      (fun _ => Except.ok "hello") (Except.ok { textResult := Except.ok "not json" })
      LoadsResult.decodeErr "/tmp/tmpf") []
    [{ page := 1, text := "hello" }] { textResult := Except.ok "not json" } "not json"
    (by decide) rfl (by decide) rfl rfl rfl

/-- C7: `ocr_pdf_or_image` takes the PDF branch iff the lowercased path
ends in ".pdf" or the sniffed mime type contains "pdf" (either signal
suffices); on the non-PDF branch it OCRs the whole file exactly once and
returns a single block with page number 1; and the handler's temporary
file path carries the original filename's `os.path.splitext` extension as
suffix, which is what makes the suffix signal meaningful. -/
theorem C7_pdf_detection_and_suffix (file_path : String) (env : OcrEnv) :
    ((ocr_pdf_or_image file_path env).usedPdfBranch =
      (strEndsWith (pyLower file_path) ".pdf" || containsSub env.fileType "pdf")) ∧
    ((strEndsWith (pyLower file_path) ".pdf" || containsSub env.fileType "pdf") = false →
      ∀ img t, env.imgOpen = Except.ok img → env.tess img = Except.ok t →
        (ocr_pdf_or_image file_path env).result = Except.ok [{ page := 1, text := t }] ∧
        (ocr_pdf_or_image file_path env).tessCalls = 1) ∧
    (∀ (f : FilePart) (henv : HandlerEnv) (fs0 : List String), f.filename ≠ "" →
      (extract_entities_endpoint { file := some f } henv fs0).tempPath =
        henv.tmpBase ++ splitextExt f.filename) := by
  refine ⟨?_, ?_, ?_⟩
  · obtain ⟨ft, conv, io, ts⟩ := env
    cases hb : (strEndsWith (pyLower file_path) ".pdf" || containsSub ft "pdf") with
    | true =>
      cases conv with
      | error e => simp [ocr_pdf_or_image, hb]
      | ok imgs =>
        rcases hl : ocrLoop ts imgs 1 with ⟨res, n⟩
        cases res <;> simp [ocr_pdf_or_image, hb, hl]
    | false =>
      cases io with
      | error e => simp [ocr_pdf_or_image, hb]
      | ok img =>
        cases ht : ts img <;> simp [ocr_pdf_or_image, hb, ht]
  · intro hb img t hio ht
    simp only [ocr_pdf_or_image, hb, Bool.false_eq_true, if_false]
    rw [hio]
    dsimp only
    rw [ht]
    exact ⟨rfl, rfl⟩
  · intro f henv fs0 hne
    have hb : (f.filename == "") = false := by simp [hne]
    simp only [extract_entities_endpoint, hb, Bool.false_eq_true, if_false]
    split <;> (try split) <;> (try split) <;> rfl

/-- C7 witnessed concretely: a PNG path takes the image branch, one
Tesseract call, a single page-1 block; the temporary path for upload
"a.PNG" is the base plus ".PNG". -/
theorem C7_pdf_detection_and_suffix_witness :
    ((ocr_pdf_or_image "/tmp/tmpg.png"
        { fileType := "image/png", convert := Except.error "unused",
          imgOpen := Except.ok { id := 5 }, tess := fun _ => Except.ok "hi" }).result =
      Except.ok [{ page := 1, text := "hi" }] ∧
     (ocr_pdf_or_image "/tmp/tmpg.png"
        { fileType := "image/png", convert := Except.error "unused",
          imgOpen := Except.ok { id := 5 }, tess := fun _ => Except.ok "hi" }).tessCalls = 1) ∧
    (extract_entities_endpoint { file := some { filename := "a.PNG", content := "" } }
        (mkEnv "image/png" (Except.error "unused") (Except.ok { id := 5 })
          (fun _ => Except.ok "hi") (Except.ok { textResult := Except.ok "\x7b\x7d" })
          (LoadsResult.ok (JsonVal.jobj [])) "/tmp/tmpg") []).tempPath =
      "/tmp/tmpg" ++ splitextExt "a.PNG" :=
  ⟨(C7_pdf_detection_and_suffix "/tmp/tmpg.png"
      { fileType := "image/png", convert := Except.error "unused",
        imgOpen := Except.ok { id := 5 }, tess := fun _ => Except.ok "hi" }).2.1
    (by decide) { id := 5 } "hi" rfl rfl,
   (C7_pdf_detection_and_suffix "/tmp/tmpg.png"
      { fileType := "image/png", convert := Except.error "unused",
        imgOpen := Except.ok { id := 5 }, tess := fun _ => Except.ok "hi" }).2.2
    { filename := "a.PNG", content := "" }
    (mkEnv "image/png" (Except.error "unused") (Except.ok { id := 5 })
      (fun _ => Except.ok "hi") (Except.ok { textResult := Except.ok "\x7b\x7d" })
      (LoadsResult.ok (JsonVal.jobj [])) "/tmp/tmpg") [] (by decide)⟩

/-- C8: a POST without a `file` part yields 400
`{error: "No file part in the request"}`; a `file` part with empty
filename yields 400 `{error: "No file selected"}`. In both cases no
temporary file is created, the filesystem is untouched, and neither OCR
nor entity extraction runs. -/
theorem C8_no_file_rejections (req : Request) (env : HandlerEnv) (fs0 : List String) :
    (req.file = none → extract_entities_endpoint req env fs0 =
      { status := 400, body := errorBody "No file part in the request", tempCreated := false,
        tempPath := "", fsAfter := fs0, ocrCalled := false, geminiCalled := false }) ∧
    (∀ f, req.file = some f → f.filename = "" → extract_entities_endpoint req env fs0 =
      { status := 400, body := errorBody "No file selected", tempCreated := false,
        tempPath := "", fsAfter := fs0, ocrCalled := false, geminiCalled := false }) := by
  constructor
  · intro h
    simp [extract_entities_endpoint, h]
  · intro f hf hname
    simp [extract_entities_endpoint, hf, hname]

/-- C8 witnessed concretely on the two rejected request shapes. -/
theorem C8_no_file_rejections_witness :
    extract_entities_endpoint { file := none }
      (mkEnv "" (Except.error "unused") (Except.error "unused")
        (fun _ => Except.error "unused") (Except.error "unused")
        LoadsResult.decodeErr "/tmp/tmpz") [] =
      { status := 400, body := errorBody "No file part in the request", tempCreated := false,
        tempPath := "", fsAfter := [], ocrCalled := false, geminiCalled := false } ∧
    extract_entities_endpoint { file := some { filename := "", content := "x" } }
      (mkEnv "" (Except.error "unused") (Except.error "unused")
        (fun _ => Except.error "unused") (Except.error "unused")
        LoadsResult.decodeErr "/tmp/tmpz") [] =
      { status := 400, body := errorBody "No file selected", tempCreated := false,
        tempPath := "", fsAfter := [], ocrCalled := false, geminiCalled := false } :=
  ⟨(C8_no_file_rejections { file := none }
      (mkEnv "" (Except.error "unused") (Except.error "unused")
        (fun _ => Except.error "unused") (Except.error "unused")
        LoadsResult.decodeErr "/tmp/tmpz") []).1 rfl,
   (C8_no_file_rejections { file := some { filename := "", content := "x" } }
      (mkEnv "" (Except.error "unused") (Except.error "unused")
        (fun _ => Except.error "unused") (Except.error "unused")
        LoadsResult.decodeErr "/tmp/tmpz") []).2 { filename := "", content := "x" } rfl rfl⟩

/-- C9: when rasterization of a PDF raises, `ocr_pdf_or_image` raises a
`RuntimeError` whose message names Poppler as a likely cause, built from
the single (unretried) `convert_from_path` call; the handler's catch-all
turns it into a 500 with body
`{error: "An internal error occurred: <message>"}`. -/
theorem C9_rasterization_failure_500 (f : FilePart) (env : HandlerEnv) (fs0 : List String)
    (e : String)
    (hne : f.filename ≠ "")
    (hpdf : (strEndsWith (pyLower (env.tmpBase ++ splitextExt f.filename)) ".pdf" ||
      containsSub env.ocrEnv.fileType "pdf") = true)
    (hconv : env.ocrEnv.convert = Except.error e) :
    (ocr_pdf_or_image (env.tmpBase ++ splitextExt f.filename) env.ocrEnv).result =
      Except.error (pdfErrMsg e) ∧
    (ocr_pdf_or_image (env.tmpBase ++ splitextExt f.filename) env.ocrEnv).convertCalls = 1 ∧
    containsSub (pdfErrMsg e) "Poppler" = true ∧
    (extract_entities_endpoint { file := some f } env fs0).status = 500 ∧
    (extract_entities_endpoint { file := some f } env fs0).body =
      errorBody ("An internal error occurred: " ++ pdfErrMsg e) := by
  have hb : (f.filename == "") = false := by simp [hne]
  have hocr : (ocr_pdf_or_image (env.tmpBase ++ splitextExt f.filename) env.ocrEnv).result =
      Except.error (pdfErrMsg e) := by
    simp only [ocr_pdf_or_image, hpdf, if_true, hconv]
  refine ⟨hocr, ?_, pdfErrMsg_names_poppler e, ?_, ?_⟩
  · simp only [ocr_pdf_or_image, hpdf, if_true, hconv]
  · simp only [extract_entities_endpoint, hb, Bool.false_eq_true, if_false]
    rw [hocr]
  · simp only [extract_entities_endpoint, hb, Bool.false_eq_true, if_false]
    rw [hocr]

/-- C9 witnessed concretely: a PDF whose rasterization raises
"poppler not found" produces the Poppler-naming message inside a 500
body. -/
theorem C9_rasterization_failure_500_witness :
    (ocr_pdf_or_image ("/tmp/tmph" ++ splitextExt "doc.pdf")
        (mkEnv "application/pdf" (Except.error "poppler not found") (Except.error "unused")
          (fun _ => Except.error "unused") (Except.error "unused")
          LoadsResult.decodeErr "/tmp/tmph").ocrEnv).result =
      Except.error (pdfErrMsg "poppler not found") ∧
    containsSub (pdfErrMsg "poppler not found") "Poppler" = true ∧
    (extract_entities_endpoint { file := some { filename := "doc.pdf", content := "" } }
        (mkEnv "application/pdf" (Except.error "poppler not found") (Except.error "unused")
          (fun _ => Except.error "unused") (Except.error "unused")
          LoadsResult.decodeErr "/tmp/tmph") []).status = 500 ∧
    (extract_entities_endpoint { file := some { filename := "doc.pdf", content := "" } }
        (mkEnv "application/pdf" (Except.error "poppler not found") (Except.error "unused")
          (fun _ => Except.error "unused") (Except.error "unused")
          LoadsResult.decodeErr "/tmp/tmph") []).body =
      errorBody ("An internal error occurred: " ++ pdfErrMsg "poppler not found") :=
  ⟨(C9_rasterization_failure_500 { filename := "doc.pdf", content := "" }
      (mkEnv "application/pdf" (Except.error "poppler not found") (Except.error "unused")
        (fun _ => Except.error "unused") (Except.error "unused")
        LoadsResult.decodeErr "/tmp/tmph") [] "poppler not found"
      (by decide) (by decide) rfl).1,
   (C9_rasterization_failure_500 { filename := "doc.pdf", content := "" }
      (mkEnv "application/pdf" (Except.error "poppler not found") (Except.error "unused")
        (fun _ => Except.error "unused") (Except.error "unused")
        LoadsResult.decodeErr "/tmp/tmph") [] "poppler not found"
      (by decide) (by decide) rfl).2.2.1,
   (C9_rasterization_failure_500 { filename := "doc.pdf", content := "" }
      (mkEnv "application/pdf" (Except.error "poppler not found") (Except.error "unused")
        (fun _ => Except.error "unused") (Except.error "unused")
        LoadsResult.decodeErr "/tmp/tmph") [] "poppler not found"
      (by decide) (by decide) rfl).2.2.2.1,
   (C9_rasterization_failure_500 { filename := "doc.pdf", content := "" }
      (mkEnv "application/pdf" (Except.error "poppler not found") (Except.error "unused")
        (fun _ => Except.error "unused") (Except.error "unused")
        LoadsResult.decodeErr "/tmp/tmph") [] "poppler not found"
      (by decide) (by decide) rfl).2.2.2.2⟩

/-- C10: the empty-filename check is exact equality with "", so a file
part whose filename is non-empty but all whitespace (e.g. a single space)
is NOT rejected with "No file selected": the upload is saved to a
temporary file and the OCR pipeline runs on it like any other file. -/
theorem C10_whitespace_filename_processed (f : FilePart) (env : HandlerEnv)
    (fs0 : List String)
    (hne : f.filename ≠ "") (_hws : stripIsEmpty f.filename = true) :
    (extract_entities_endpoint { file := some f } env fs0).tempCreated = true ∧
    (extract_entities_endpoint { file := some f } env fs0).ocrCalled = true ∧
    (extract_entities_endpoint { file := some f } env fs0).body ≠
      errorBody "No file selected" := by
  have hb : (f.filename == "") = false := by simp [hne]
  simp only [extract_entities_endpoint, hb, Bool.false_eq_true, if_false]
  refine ⟨?_, ?_, ?_⟩
  · split <;> (try split) <;> (try split) <;> rfl
  · split <;> (try split) <;> (try split) <;> rfl
  · split
    · intro h
      simp only [errorBody, JsonVal.jobj.injEq, List.cons.injEq, Prod.mk.injEq,
        JsonVal.jstr.injEq, and_true, true_and] at h
      exact internal_msg_ne_selected _ h
    · split
      · intro h
        simp only [errorBody, JsonVal.jobj.injEq, List.cons.injEq, Prod.mk.injEq,
          JsonVal.jstr.injEq, and_true, true_and] at h
        exact absurd h (by decide)
      · split
        · intro h
          simp only [errorBody, JsonVal.jobj.injEq, List.cons.injEq, Prod.mk.injEq,
            JsonVal.jstr.injEq, and_true, true_and] at h
          exact internal_msg_ne_selected _ h
        · intro h
          simp only [payloadBody, errorBody, JsonVal.jobj.injEq, List.cons.injEq,
            Prod.mk.injEq, JsonVal.jstr.injEq] at h
          exact absurd h.1.1 (by decide)

/-- C10 witnessed with the single-space filename: the upload is saved and
processed, not rejected as "No file selected". -/
theorem C10_whitespace_filename_processed_witness :
    (extract_entities_endpoint { file := some { filename := " ", content := "x" } }
        (mkEnv "image/png" (Except.error "unused") (Except.ok { id := 0 })
          (fun _ => Except.ok "hi") (Except.ok { textResult := Except.ok "\x7b\x7d" })
          (LoadsResult.ok (JsonVal.jobj [])) "/tmp/tmpi") []).tempCreated = true ∧
    (extract_entities_endpoint { file := some { filename := " ", content := "x" } }
        (mkEnv "image/png" (Except.error "unused") (Except.ok { id := 0 })
          (fun _ => Except.ok "hi") (Except.ok { textResult := Except.ok "\x7b\x7d" })
          (LoadsResult.ok (JsonVal.jobj [])) "/tmp/tmpi") []).ocrCalled = true ∧
    (extract_entities_endpoint { file := some { filename := " ", content := "x" } }
        (mkEnv "image/png" (Except.error "unused") (Except.ok { id := 0 })
          (fun _ => Except.ok "hi") (Except.ok { textResult := Except.ok "\x7b\x7d" })
          (LoadsResult.ok (JsonVal.jobj [])) "/tmp/tmpi") []).body ≠
      errorBody "No file selected" :=
  C10_whitespace_filename_processed { filename := " ", content := "x" }
    (mkEnv "image/png" (Except.error "unused") (Except.ok { id := 0 })
      (fun _ => Except.ok "hi") (Except.ok { textResult := Except.ok "\x7b\x7d" })
      (LoadsResult.ok (JsonVal.jobj [])) "/tmp/tmpi") []
    (by decide) (by decide)
